import Mathlib

/- Formal model of the request-deduplication cache, session rate limiter,
   hash-key generator and request-lifecycle coordinator of the
   ghana-paint-ai repository (src/services/cache.ts, src/App.tsx).

   Modelling conventions: JavaScript strings are Lean strings (or lists of
   characters for the hash payloads), timestamps are natural numbers of
   milliseconds, JavaScript 32-bit integer arithmetic is Int with explicit
   truncation, promises that may reject are Except values, and the two
   on-device storage backends are explicit pieces of state threaded through
   each operation.  The asynchronous functions of the source are modelled as
   state-passing functions; the single-threaded event loop makes each
   synchronous section (between awaits) atomic, which is what the state
   transitions below capture. -/

/-! ## Durable cache store (class ImageCache, src/services/cache.ts lines 6-195) -/

/-- Time-to-live of cache entries: 7 days in milliseconds (cache.ts line 10). -/
def TTL : Nat := 7 * 24 * 60 * 60 * 1000

/-- Reading a key from an IndexedDB object store or from the in-memory Map,
    both modelled as association lists from string keys to (value, timestamp)
    pairs. -/
def storeGet {α : Type} (s : List (String × α × Nat)) (k : String) : Option (α × Nat) :=
  (s.find? (fun e => e.1 == k)).map (fun e => e.2)

/-- Deleting a key (store.delete(key), cache.ts line 79). -/
def storeDelete {α : Type} (s : List (String × α × Nat)) (k : String) :
    List (String × α × Nat) :=
  s.filter (fun e => !(e.1 == k))

/-- Writing a key (store.put(entry, key), cache.ts line 95; Map.set line 127).
    Overwrites any previous entry under the same key. -/
def storePut {α : Type} (s : List (String × α × Nat)) (k : String) (v : α) (ts : Nat) :
    List (String × α × Nat) :=
  (k, v, ts) :: storeDelete s k

/-- The two storage backends of ImageCache: the IndexedDB object store and the
    static in-memory fallback Map (cache.ts lines 9, 115). -/
structure CacheState (α : Type) where
  idb : List (String × α × Nat)
  mem : List (String × α × Nat)
  deriving DecidableEq

/-- ImageCache.getOrSetMemory (cache.ts lines 117-129).  The fetcher is
    modelled as a function from the invocation index to the outcome of that
    invocation; `calls` counts fetcher invocations made so far by the enclosing
    getOrSet call, and the returned Nat is the total invocation count. -/
def getOrSetMemory {α ε : Type} (key : String) (fetcher : Nat → Except ε α) (now : Nat)
    (st : CacheState α) (calls : Nat) : Except ε α × CacheState α × Nat :=
  match storeGet st.mem key with
  | some (v, ts) =>
    if now - ts < TTL then (Except.ok v, st, calls)
    else
      match fetcher calls with
      | Except.ok w => (Except.ok w, { st with mem := storePut st.mem key w now }, calls + 1)
      | Except.error e => (Except.error e, st, calls + 1)
  | none =>
    match fetcher calls with
    | Except.ok w => (Except.ok w, { st with mem := storePut st.mem key w now }, calls + 1)
    | Except.error e => (Except.error e, st, calls + 1)

/-- The miss continuation of ImageCache.getOrSet (cache.ts lines 91-103):
    invoke the fetcher, then store.put the result.  A rejected fetch, or a
    failed put (`putOk = false`), is caught by the surrounding try/catch
    (lines 104-109) which falls back to getOrSetMemory — re-invoking the
    fetcher there. -/
def getOrSetFetch {α ε : Type} (key : String) (fetcher : Nat → Except ε α) (now : Nat)
    (putOk : Bool) (st : CacheState α) : Except ε α × CacheState α × Nat :=
  match fetcher 0 with
  | Except.ok v =>
    if putOk then (Except.ok v, { st with idb := storePut st.idb key v now }, 1)
    else getOrSetMemory key fetcher now st 1
  | Except.error _ => getOrSetMemory key fetcher now st 1

/-- ImageCache.getOrSet (cache.ts lines 60-110).  `openOk` models whether
    opening the IndexedDB connection succeeds (failure is caught and handled
    by the memory fallback), `putOk` whether the store.put succeeds. -/
def getOrSet {α ε : Type} (key : String) (fetcher : Nat → Except ε α) (now : Nat)
    (openOk putOk : Bool) (st : CacheState α) : Except ε α × CacheState α × Nat :=
  if openOk then
    match storeGet st.idb key with
    | some (v, ts) =>
      if now - ts < TTL then (Except.ok v, st, 0)
      else getOrSetFetch key fetcher now putOk { st with idb := storeDelete st.idb key }
    | none => getOrSetFetch key fetcher now putOk st
  else getOrSetMemory key fetcher now st 0

/-- The backend that a getOrSet call with IndexedDB flag `idbOk` consults. -/
def activeStore {α : Type} (st : CacheState α) (idbOk : Bool) : List (String × α × Nat) :=
  if idbOk then st.idb else st.mem

theorem storeGet_storePut_self {α : Type} (s : List (String × α × Nat)) (k : String)
    (v : α) (ts : Nat) : storeGet (storePut s k v ts) k = some (v, ts) := by
  simp [storeGet, storePut, List.find?]

/-- C1: on a cache miss, getOrSet is claimed to invoke the fetcher exactly once
    and to propagate a rejected fetch to the caller unchanged.  The code
    instead catches the rejection in the IndexedDB try/catch and retries via
    the memory fallback: an always-rejecting fetcher is invoked twice (first
    conjunct, invocation count 2), and a fetcher that rejects once and then
    succeeds yields a successful, memory-cached result instead of the
    propagated rejection (second conjunct). -/
theorem getOrSet_rejected_fetch_reinvoked :
    (getOrSet "k" (fun _ => (Except.error "boom" : Except String Nat)) 0 true true ⟨[], []⟩
      = (Except.error "boom", ⟨[], []⟩, 2))
    ∧ (getOrSet "k"
        (fun n => if n = 0 then (Except.error "boom" : Except String Nat) else Except.ok 42)
        0 true true ⟨[], []⟩
      = (Except.ok 42, ⟨[], [("k", 42, 0)]⟩, 2)) := by
  exact ⟨rfl, rfl⟩

/-- C7 counterexample: the claim promises that whenever getOrSet(key, fetcherA)
    returns V, a second getOrSet(key, fetcherB) within the TTL window returns V
    without invoking fetcherB — for every pair of fetchers.  It fails on the
    rejection-retry path: a fetcher that rejects once and then succeeds (first
    conjunct) returns V = 42 cached only in the memory fallback, the IndexedDB
    store staying empty, so a second call 5 ms later against the healthy
    IndexedDB backend (second conjunct) misses, invokes fetcherB (invocation
    count 1) and returns fetcherB's 99 instead of V. -/
theorem getOrSet_second_fetch_despite_ttl_cex :
    (getOrSet "k1"
        (fun n => if n = 0 then (Except.error "boom" : Except String Nat) else Except.ok 42)
        0 true true ⟨[], []⟩
      = (Except.ok 42, ⟨[], [("k1", 42, 0)]⟩, 2))
    ∧ (getOrSet "k1" (fun _ => (Except.ok 99 : Except String Nat)) 5 true true
        ⟨[], [("k1", 42, 0)]⟩
      = (Except.ok 99, ⟨[("k1", 99, 5)], [("k1", 42, 0)]⟩, 1))
    ∧ 5 - 0 < TTL
    ∧ (99 : Nat) ≠ 42 := by
  exact ⟨rfl, rfl, by decide, by decide⟩

/-- C7 amended: idempotent cache hit under a clean first call.  If the first
    getOrSet call on a key finds no prior entry in the backend it consults,
    its fetcher's first invocation succeeds, and the same backend serves both
    calls (healthy IndexedDB for both, or the memory fallback for both), then
    a second getOrSet on that key within the TTL window of the first call
    returns the first call's V with zero invocations of its own fetcher and
    leaves the state unchanged — even for a different fetcher instance.
    Without these conditions the guarantee fails, as the counterexample
    shows: a first fetcher that rejects once and then succeeds caches V only
    in the memory fallback, and a second healthy-IndexedDB call re-fetches. -/
theorem getOrSet_within_ttl_returns_cached {α ε : Type}
    (st st1 : CacheState α) (k : String) (b : Bool) (fA fB : Nat → Except ε α)
    (now1 now2 : Nat) (V : α) (n : Nat)
    (hA : ∃ v, fA 0 = Except.ok v)
    (hmiss : storeGet (activeStore st b) k = none)
    (h1 : getOrSet k fA now1 b b st = (Except.ok V, st1, n))
    (hwin : now2 - now1 < TTL) :
    getOrSet k fB now2 b b st1 = (Except.ok V, st1, 0) := by
  obtain ⟨v, hv⟩ := hA
  cases b with
  | false =>
    simp [activeStore] at hmiss
    simp [getOrSet, getOrSetMemory, hmiss, hv, Prod.mk.injEq] at h1
    obtain ⟨hV, hst1, -⟩ := h1
    subst hV
    subst hst1
    simp [getOrSet, getOrSetMemory, storeGet_storePut_self, hwin]
  | true =>
    simp [activeStore] at hmiss
    simp [getOrSet, getOrSetFetch, hmiss, hv, Prod.mk.injEq] at h1
    obtain ⟨hV, hst1, -⟩ := h1
    subst hV
    subst hst1
    simp [getOrSet, storeGet_storePut_self, hwin]

/-- C7 witness: a concrete first call caching 7 under "k1" at time 0, and a
    second call at time 5 with a different fetcher returning the cached 7
    without invoking it. -/
theorem getOrSet_within_ttl_returns_cached_witness :
    ((∃ v, (fun _ : Nat => (Except.ok 7 : Except String Nat)) 0 = Except.ok v)
      ∧ storeGet (activeStore (⟨[], []⟩ : CacheState Nat) true) "k1" = none
      ∧ getOrSet "k1" (fun _ => (Except.ok 7 : Except String Nat)) 0 true true ⟨[], []⟩
          = (Except.ok 7, ⟨[("k1", 7, 0)], []⟩, 1)
      ∧ 5 - 0 < TTL)
    ∧ getOrSet "k1" (fun _ => (Except.ok 8 : Except String Nat)) 5 true true
        ⟨[("k1", 7, 0)], []⟩
      = (Except.ok 7, ⟨[("k1", 7, 0)], []⟩, 0) := by
  refine ⟨⟨⟨7, rfl⟩, rfl, rfl, by decide⟩, ?_⟩
  exact getOrSet_within_ttl_returns_cached ⟨[], []⟩ ⟨[("k1", 7, 0)], []⟩ "k1" true
    (fun _ => Except.ok 7) (fun _ => Except.ok 8) 0 5 7 1 ⟨7, rfl⟩ rfl rfl (by decide)

/-! ## Session rate limiter (src/services/cache.ts lines 198-696) -/

/-- The quota configuration constants (cache.ts lines 208-215). -/
structure LimitsConfig where
  DAILY_VISUALIZATIONS : Nat
  HOURLY_VISUALIZATIONS : Nat
  MIN_COOLDOWN_SECONDS : Nat
  MAX_COOLDOWN_SECONDS : Nat
  MAX_UNIQUE_IMAGES_PER_DAY : Nat
  PROGRESSIVE_DELAY_ENABLED : Bool

/-- The LIMITS constant (cache.ts lines 208-215). -/
def LIMITS : LimitsConfig :=
  { DAILY_VISUALIZATIONS := 7
    HOURLY_VISUALIZATIONS := 2
    MIN_COOLDOWN_SECONDS := 5
    MAX_COOLDOWN_SECONDS := 15
    MAX_UNIQUE_IMAGES_PER_DAY := 3
    PROGRESSIVE_DELAY_ENABLED := true }

/-- The daily sub-record of RateLimitData (cache.ts lines 218-222). -/
structure DailyData where
  date : String
  count : Nat
  lastReset : Nat
  deriving DecidableEq

/-- The hourly sub-record of RateLimitData (cache.ts lines 223-227). -/
structure HourlyData where
  window : Nat
  count : Nat
  requests : List Nat
  deriving DecidableEq

/-- RateLimitData (cache.ts lines 217-231). -/
structure RateLimitData where
  daily : DailyData
  hourly : HourlyData
  lastRequest : Nat
  images : List String
  cooldownUntil : Nat
  deriving DecidableEq

/-- RateLimitResult (cache.ts lines 233-240). -/
structure RateLimitResult where
  allowed : Bool
  reason : Option String
  waitTime : Option Nat
  dailyRemaining : Option Int
  hourlyRemaining : Option Int
  timeUntilDailyReset : Option Nat
  deriving DecidableEq

/-- Values the source derives from the wall clock via Date (getTodayString,
    getCurrentHourWindow, getTimeUntilDailyReset, getTimeUntilHourlyReset,
    Date.now — cache.ts lines 245-291).  They are supplied as ambient inputs
    to each operation. -/
structure Clock where
  nowMs : Nat
  todayStr : String
  hourWindow : Nat
  msUntilDailyReset : Nat
  msUntilHourlyReset : Nat

/-- The two persistence backends of the rate limiter — localStorage under
    STORAGE_KEY (primary) and the fingerprint-keyed IndexedDB backup
    (secondary) — together with the module-level hasCheckedBackup flag
    (cache.ts lines 204-206, 463). -/
structure RLStore where
  primary : Option RateLimitData
  secondary : Option RateLimitData
  hasCheckedBackup : Bool
  deriving DecidableEq

/-- loadData (cache.ts lines 388-397): read the primary store only. -/
def loadData (s : RLStore) : Option RateLimitData := s.primary

/-- saveData (cache.ts lines 427-435): write localStorage and mirror to the
    IndexedDB backup via saveToIDB. -/
def saveData (d : RateLimitData) (s : RLStore) : RLStore :=
  { s with primary := some d, secondary := some d }

/-- initializeData (cache.ts lines 440-460). -/
def initializeData (c : Clock) : RateLimitData :=
  { daily := { date := c.todayStr, count := 0, lastReset := c.nowMs }
    hourly := { window := c.hourWindow, count := 0, requests := [] }
    lastRequest := 0
    images := []
    cooldownUntil := 0 }

/-- initRateLimiter (cache.ts lines 468-481): a one-shot backup check guarded
    by hasCheckedBackup; restores the secondary into the primary only when the
    primary is empty. -/
def initRateLimiter (s : RLStore) : RLStore :=
  if s.hasCheckedBackup then s
  else
    match s.primary with
    | some _ => { s with hasCheckedBackup := true }
    | none =>
      match s.secondary with
      | some backup => saveData backup { s with hasCheckedBackup := true }
      | none => { s with hasCheckedBackup := true }

/-- getData (cache.ts lines 486-527): load from the primary only, initialize
    when empty, lazily reset daily and hourly windows, purge hourly requests
    from before the current hour, and persist the normalized state to both
    backends. -/
def getData (c : Clock) (s : RLStore) : RateLimitData × RLStore :=
  match loadData s with
  | none =>
    let d := initializeData c
    (d, saveData d s)
  | some d0 =>
    let d1 := if d0.daily.date ≠ c.todayStr
      then { d0 with
        daily := { date := c.todayStr, count := 0, lastReset := c.nowMs }
        images := [] }
      else d0
    let d2 := if d1.hourly.window ≠ c.hourWindow
      then { d1 with hourly := { window := c.hourWindow, count := 0, requests := [] } }
      else d1
    let reqs := d2.hourly.requests.filter (fun t => decide (c.hourWindow ≤ t))
    let d3 := { d2 with hourly := { d2.hourly with requests := reqs, count := reqs.length } }
    (d3, saveData d3 s)

/-- calculateCooldown (cache.ts lines 532-544).  The JavaScript arithmetic
    (requestCount - 1) is done in Int, so a count of 0 yields 0 seconds. -/
def calculateCooldown (requestCount : Nat) : Int :=
  if !LIMITS.PROGRESSIVE_DELAY_ENABLED then (LIMITS.MIN_COOLDOWN_SECONDS : Int)
  else
    min ((LIMITS.MIN_COOLDOWN_SECONDS : Int) + ((requestCount : Int) - 1) * 5)
      (LIMITS.MAX_COOLDOWN_SECONDS : Int)

/-- The cooldown denial message (cache.ts line 558). -/
def cooldownReason (waitTime : Nat) : String :=
  "Please wait " ++ toString waitTime ++ " second" ++ (if waitTime = 1 then "" else "s")
    ++ " before your next request."

/-- The daily-limit denial message (cache.ts lines 567-573). -/
def dailyLimitReason (msUntilReset : Nat) : String :=
  let hours := msUntilReset / (1000 * 60 * 60)
  let minutes := (msUntilReset % (1000 * 60 * 60)) / (1000 * 60)
  "Daily limit reached (" ++ toString LIMITS.DAILY_VISUALIZATIONS ++ "/"
    ++ toString LIMITS.DAILY_VISUALIZATIONS ++ "). Resets in "
    ++ toString hours ++ "h " ++ toString minutes ++ "m."

/-- The hourly-limit denial message (cache.ts lines 582-587). -/
def hourlyLimitReason (msUntilReset : Nat) : String :=
  let minutes := (msUntilReset + 59999) / (1000 * 60)
  "Hourly limit reached (" ++ toString LIMITS.HOURLY_VISUALIZATIONS ++ "/"
    ++ toString LIMITS.HOURLY_VISUALIZATIONS ++ "). Try again in "
    ++ toString minutes ++ " minute" ++ (if minutes = 1 then "" else "s") ++ "."

/-- The pure decision part of checkRateLimit (cache.ts lines 553-599),
    evaluated on the data returned by getData: cooldown check first, then
    daily, then hourly, else admit. -/
def checkResult (c : Clock) (data : RateLimitData) : RateLimitResult :=
  if c.nowMs < data.cooldownUntil then
    let waitTime := (data.cooldownUntil - c.nowMs + 999) / 1000
    { allowed := false
      reason := some (cooldownReason waitTime)
      waitTime := some waitTime
      dailyRemaining := some ((LIMITS.DAILY_VISUALIZATIONS : Int) - data.daily.count)
      hourlyRemaining := some ((LIMITS.HOURLY_VISUALIZATIONS : Int) - data.hourly.count)
      timeUntilDailyReset := none }
  else if LIMITS.DAILY_VISUALIZATIONS ≤ data.daily.count then
    { allowed := false
      reason := some (dailyLimitReason c.msUntilDailyReset)
      waitTime := none
      dailyRemaining := some 0
      hourlyRemaining := some ((LIMITS.HOURLY_VISUALIZATIONS : Int) - data.hourly.count)
      timeUntilDailyReset := some c.msUntilDailyReset }
  else if LIMITS.HOURLY_VISUALIZATIONS ≤ data.hourly.count then
    { allowed := false
      reason := some (hourlyLimitReason c.msUntilHourlyReset)
      waitTime := some ((c.msUntilHourlyReset + 999) / 1000)
      dailyRemaining := some ((LIMITS.DAILY_VISUALIZATIONS : Int) - data.daily.count)
      hourlyRemaining := some 0
      timeUntilDailyReset := none }
  else
    { allowed := true
      reason := none
      waitTime := none
      dailyRemaining := some ((LIMITS.DAILY_VISUALIZATIONS : Int) - data.daily.count)
      hourlyRemaining := some ((LIMITS.HOURLY_VISUALIZATIONS : Int) - data.hourly.count)
      timeUntilDailyReset := none }

/-- checkRateLimit (cache.ts lines 549-600): getData (which persists its
    normalization), then the pure check. -/
def checkRateLimit (c : Clock) (s : RLStore) : RateLimitResult × RLStore :=
  let p := getData c s
  (checkResult c p.1, p.2)

/-- recordVisualization (cache.ts lines 605-632). -/
def recordVisualization (c : Clock) (s : RLStore) : RLStore :=
  let p := getData c s
  let data := p.1
  let d1 := { data with daily := { data.daily with count := data.daily.count + 1 } }
  let d2 := if d1.hourly.window = c.hourWindow
    then { d1 with hourly := { d1.hourly with
      count := d1.hourly.count + 1
      requests := d1.hourly.requests ++ [c.nowMs] } }
    else { d1 with hourly := { window := c.hourWindow, count := 1, requests := [c.nowMs] } }
  let cooldownSeconds := calculateCooldown d2.daily.count
  let d3 := { d2 with
    cooldownUntil := c.nowMs + (cooldownSeconds * 1000).toNat
    lastRequest := c.nowMs }
  saveData d3 p.2

/-- The record returned by getRateLimitStatus (cache.ts lines 672-685). -/
structure RateLimitStatus where
  dailyRemaining : Int
  hourlyRemaining : Int
  cooldownUntil : Nat
  timeUntilDailyReset : Nat
  deriving DecidableEq

/-- getRateLimitStatus (cache.ts lines 672-685). -/
def getRateLimitStatus (c : Clock) (s : RLStore) : RateLimitStatus × RLStore :=
  let p := getData c s
  ({ dailyRemaining := (LIMITS.DAILY_VISUALIZATIONS : Int) - p.1.daily.count
     hourlyRemaining := (LIMITS.HOURLY_VISUALIZATIONS : Int) - p.1.hourly.count
     cooldownUntil := p.1.cooldownUntil
     timeUntilDailyReset := c.msUntilDailyReset }, p.2)

/-- clearRateLimitData (cache.ts lines 690-696): removes the localStorage
    entry only; the IndexedDB backup is not touched. -/
def clearRateLimitData (s : RLStore) : RLStore :=
  { s with primary := none }

/-- A sequence of recordVisualization calls at the given clocks. -/
def recordSeq (cs : List Clock) (s : RLStore) : RLStore :=
  cs.foldl (fun s c => recordVisualization c s) s

/-- A stored state is current for clock c when its date is today, its hourly
    window is the current hour, its recorded requests all lie in the current
    hour and its hourly count is consistent — exactly the states that getData
    normalizes to themselves. -/
def currentFor (d : RateLimitData) (c : Clock) : Prop :=
  d.daily.date = c.todayStr ∧ d.hourly.window = c.hourWindow ∧
    (∀ t ∈ d.hourly.requests, c.hourWindow ≤ t) ∧
    d.hourly.count = d.hourly.requests.length

theorem getData_snd (c : Clock) (s : RLStore) :
    (getData c s).2 = saveData (getData c s).1 s := by
  unfold getData loadData
  cases s.primary <;> rfl

theorem saveData_saveData (a b : RateLimitData) (s : RLStore) :
    saveData a (saveData b s) = saveData a s := rfl

theorem getData_of_current (c : Clock) (s : RLStore) (d : RateLimitData)
    (hp : s.primary = some d) (hcur : currentFor d c) :
    getData c s = (d, saveData d s) := by
  obtain ⟨h1, h2, h3, h4⟩ := hcur
  have hfil : d.hourly.requests.filter (fun t => decide (c.hourWindow ≤ t))
      = d.hourly.requests := by
    rw [List.filter_eq_self]
    intro t ht
    simpa using h3 t ht
  simp only [getData, loadData, hp, h1, h2, ne_eq, not_true_eq_false, if_false, hfil, ← h4]
  rw [← h2]

theorem getData_fst_daily (c : Clock) (s : RLStore) (d : RateLimitData)
    (hp : s.primary = some d) (hdate : d.daily.date = c.todayStr) :
    (getData c s).1.daily = d.daily := by
  simp only [getData, loadData, hp, hdate, ne_eq, not_true_eq_false, if_false]
  split_ifs <;> simp [hdate]

/-- C3: the claim says checkRateLimit is side-effect-free on the persisted
    state.  It is not — getData, which it calls, always persists.  Concretely,
    on a stored state from the previous day, checkRateLimit rewrites both
    backends with the lazily reset state (daily.count 5 becomes 0), so the
    persisted state is not what it was before the call. -/
theorem checkRateLimit_not_write_free_cex :
    (checkRateLimit ⟨1000, "2026-10-12", 0, 3600000, 60000⟩
        ⟨some ⟨⟨"2026-10-11", 5, 0⟩, ⟨0, 0, []⟩, 0, [], 0⟩,
         some ⟨⟨"2026-10-11", 5, 0⟩, ⟨0, 0, []⟩, 0, [], 0⟩, true⟩).2
      ≠ ⟨some ⟨⟨"2026-10-11", 5, 0⟩, ⟨0, 0, []⟩, 0, [], 0⟩,
         some ⟨⟨"2026-10-11", 5, 0⟩, ⟨0, 0, []⟩, 0, [], 0⟩, true⟩
    ∧ (checkRateLimit ⟨1000, "2026-10-12", 0, 3600000, 60000⟩
        ⟨some ⟨⟨"2026-10-11", 5, 0⟩, ⟨0, 0, []⟩, 0, [], 0⟩,
         some ⟨⟨"2026-10-11", 5, 0⟩, ⟨0, 0, []⟩, 0, [], 0⟩, true⟩).2.primary
      = some ⟨⟨"2026-10-12", 0, 1000⟩, ⟨0, 0, []⟩, 0, [], 0⟩ := by
  exact ⟨by decide, rfl⟩

/-- C3 amended: checkRateLimit consumes no quota, but it is write-active: via
    getData it persists initialization and lazy resets and mirrors the primary
    into the secondary.  For a stored state that is already current for the
    clock, the call leaves the primary holding exactly the prior state and
    sets the secondary to that same state. -/
theorem checkRateLimit_preserves_current_state
    (c : Clock) (s : RLStore) (d : RateLimitData)
    (hp : s.primary = some d) (hcur : currentFor d c) :
    (checkRateLimit c s).2
      = { primary := some d, secondary := some d,
          hasCheckedBackup := s.hasCheckedBackup } := by
  have hgd := getData_of_current c s d hp hcur
  simp [checkRateLimit, hgd, saveData]

/-- C3 amended witness: a current state with count 5 at the check clock is
    persisted unchanged in the primary (and mirrored to the secondary). -/
theorem checkRateLimit_preserves_current_state_witness :
    ((⟨some ⟨⟨"2026-10-12", 5, 0⟩, ⟨0, 1, [0]⟩, 0, [], 0⟩, none, true⟩ : RLStore).primary
        = some ⟨⟨"2026-10-12", 5, 0⟩, ⟨0, 1, [0]⟩, 0, [], 0⟩
      ∧ currentFor ⟨⟨"2026-10-12", 5, 0⟩, ⟨0, 1, [0]⟩, 0, [], 0⟩
          ⟨1000, "2026-10-12", 0, 3600000, 60000⟩)
    ∧ (checkRateLimit ⟨1000, "2026-10-12", 0, 3600000, 60000⟩
        ⟨some ⟨⟨"2026-10-12", 5, 0⟩, ⟨0, 1, [0]⟩, 0, [], 0⟩, none, true⟩).2
      = { primary := some ⟨⟨"2026-10-12", 5, 0⟩, ⟨0, 1, [0]⟩, 0, [], 0⟩,
          secondary := some ⟨⟨"2026-10-12", 5, 0⟩, ⟨0, 1, [0]⟩, 0, [], 0⟩,
          hasCheckedBackup := true } := by
  refine ⟨⟨rfl, ⟨rfl, rfl, by decide, rfl⟩⟩, ?_⟩
  exact checkRateLimit_preserves_current_state _ _
    ⟨⟨"2026-10-12", 5, 0⟩, ⟨0, 1, [0]⟩, 0, [], 0⟩ rfl ⟨rfl, rfl, by decide, rfl⟩

/-- C8: the progressive cooldown is monotone in the daily request count and
    never exceeds MAX_COOLDOWN_SECONDS. -/
theorem calculateCooldown_monotone_bounded (n1 n2 : Nat) (h : n1 < n2) :
    calculateCooldown n1 ≤ calculateCooldown n2
    ∧ ∀ n : Nat, calculateCooldown n ≤ (LIMITS.MAX_COOLDOWN_SECONDS : Int) := by
  constructor
  · simp only [calculateCooldown, LIMITS, Bool.not_true, Bool.false_eq_true, if_false]
    omega
  · intro n
    simp only [calculateCooldown, LIMITS, Bool.not_true, Bool.false_eq_true, if_false]
    omega

/-- C8 witness at counts 1 and 2 (cooldowns 5 and 10 seconds). -/
theorem calculateCooldown_monotone_bounded_witness :
    1 < 2 ∧ (calculateCooldown 1 ≤ calculateCooldown 2
      ∧ ∀ n : Nat, calculateCooldown n ≤ (LIMITS.MAX_COOLDOWN_SECONDS : Int)) :=
  ⟨by decide, calculateCooldown_monotone_bounded 1 2 (by decide)⟩

/-- C10: clearRateLimitData removes only the primary entry; the secondary
    backup survives, and a subsequent fresh-session initRateLimiter restores
    it into the primary, so clearing is not a full reset. -/
theorem clearRateLimitData_keeps_backup
    (s : RLStore) (d : RateLimitData)
    (hs : s.secondary = some d) (hf : s.hasCheckedBackup = false) :
    (clearRateLimitData s).primary = none
    ∧ (clearRateLimitData s).secondary = some d
    ∧ initRateLimiter (clearRateLimitData s)
      = { primary := some d, secondary := some d, hasCheckedBackup := true } := by
  refine ⟨rfl, hs, ?_⟩
  simp [clearRateLimitData, initRateLimiter, hf, hs, saveData]

/-- C10 witness: clearing a store whose backup holds a count-5 state, then a
    fresh-session init, restores that state to both backends. -/
theorem clearRateLimitData_keeps_backup_witness :
    ((⟨some ⟨⟨"2026-10-12", 5, 0⟩, ⟨0, 1, [0]⟩, 0, [], 0⟩,
        some ⟨⟨"2026-10-12", 5, 0⟩, ⟨0, 1, [0]⟩, 0, [], 0⟩, false⟩ : RLStore).secondary
        = some ⟨⟨"2026-10-12", 5, 0⟩, ⟨0, 1, [0]⟩, 0, [], 0⟩
      ∧ (⟨some ⟨⟨"2026-10-12", 5, 0⟩, ⟨0, 1, [0]⟩, 0, [], 0⟩,
          some ⟨⟨"2026-10-12", 5, 0⟩, ⟨0, 1, [0]⟩, 0, [], 0⟩, false⟩ : RLStore).hasCheckedBackup
        = false)
    ∧ ((clearRateLimitData ⟨some ⟨⟨"2026-10-12", 5, 0⟩, ⟨0, 1, [0]⟩, 0, [], 0⟩,
          some ⟨⟨"2026-10-12", 5, 0⟩, ⟨0, 1, [0]⟩, 0, [], 0⟩, false⟩).primary = none
      ∧ (clearRateLimitData ⟨some ⟨⟨"2026-10-12", 5, 0⟩, ⟨0, 1, [0]⟩, 0, [], 0⟩,
          some ⟨⟨"2026-10-12", 5, 0⟩, ⟨0, 1, [0]⟩, 0, [], 0⟩, false⟩).secondary
          = some ⟨⟨"2026-10-12", 5, 0⟩, ⟨0, 1, [0]⟩, 0, [], 0⟩
      ∧ initRateLimiter (clearRateLimitData ⟨some ⟨⟨"2026-10-12", 5, 0⟩, ⟨0, 1, [0]⟩, 0, [], 0⟩,
          some ⟨⟨"2026-10-12", 5, 0⟩, ⟨0, 1, [0]⟩, 0, [], 0⟩, false⟩)
        = { primary := some ⟨⟨"2026-10-12", 5, 0⟩, ⟨0, 1, [0]⟩, 0, [], 0⟩,
            secondary := some ⟨⟨"2026-10-12", 5, 0⟩, ⟨0, 1, [0]⟩, 0, [], 0⟩,
            hasCheckedBackup := true }) := by
  refine ⟨⟨rfl, rfl⟩, ?_⟩
  exact clearRateLimitData_keeps_backup _ ⟨⟨"2026-10-12", 5, 0⟩, ⟨0, 1, [0]⟩, 0, [], 0⟩ rfl rfl

/-- C2: the claim says that with an empty primary store and a populated
    secondary, the next checkRateLimit uses the secondary's counts and
    restores them.  It does not: checkRateLimit reads the primary only (via
    getData and loadData), proceeds from a freshly initialized zero-count
    state (dailyRemaining 7, not the 2 that the backed-up count 5 would give),
    and overwrites the secondary with the fresh state — even in a session
    where the one-shot backup check has not yet run. -/
theorem checkRateLimit_skips_backup_cex :
    (checkRateLimit ⟨1000, "2026-10-12", 0, 3600000, 60000⟩
        ⟨none, some ⟨⟨"2026-10-12", 5, 0⟩, ⟨0, 1, [0]⟩, 0, [], 0⟩, false⟩).1
      = { allowed := true, reason := none, waitTime := none,
          dailyRemaining := some 7, hourlyRemaining := some 2,
          timeUntilDailyReset := none }
    ∧ (checkRateLimit ⟨1000, "2026-10-12", 0, 3600000, 60000⟩
        ⟨none, some ⟨⟨"2026-10-12", 5, 0⟩, ⟨0, 1, [0]⟩, 0, [], 0⟩, false⟩).2.secondary
      = some (initializeData ⟨1000, "2026-10-12", 0, 3600000, 60000⟩)
    ∧ (LIMITS.DAILY_VISUALIZATIONS : Int)
        - (⟨⟨"2026-10-12", 5, 0⟩, ⟨0, 1, [0]⟩, 0, [], 0⟩ : RateLimitData).daily.count = 2
    ∧ initializeData ⟨1000, "2026-10-12", 0, 3600000, 60000⟩
      ≠ ⟨⟨"2026-10-12", 5, 0⟩, ⟨0, 1, [0]⟩, 0, [], 0⟩ := by
  exact ⟨rfl, rfl, by decide, by decide⟩

/-- C2 amended: the restore from the secondary store happens only in the
    one-shot initRateLimiter.  If initRateLimiter runs in a fresh session
    while the primary is empty and the secondary holds a state that is current
    for the clock and within quota, then a subsequent checkRateLimit uses the
    restored counts and the primary again holds the backed-up state. -/
theorem initRateLimiter_restores_backup
    (s : RLStore) (c : Clock) (d : RateLimitData)
    (hp : s.primary = none) (hs : s.secondary = some d) (hf : s.hasCheckedBackup = false)
    (hcur : currentFor d c)
    (hcd : d.cooldownUntil ≤ c.nowMs)
    (hdaily : d.daily.count < LIMITS.DAILY_VISUALIZATIONS)
    (hhour : d.hourly.count < LIMITS.HOURLY_VISUALIZATIONS) :
    (checkRateLimit c (initRateLimiter s)).1
      = { allowed := true, reason := none, waitTime := none,
          dailyRemaining := some ((LIMITS.DAILY_VISUALIZATIONS : Int) - d.daily.count),
          hourlyRemaining := some ((LIMITS.HOURLY_VISUALIZATIONS : Int) - d.hourly.count),
          timeUntilDailyReset := none }
    ∧ (checkRateLimit c (initRateLimiter s)).2.primary = some d := by
  have hinit : initRateLimiter s = saveData d { s with hasCheckedBackup := true } := by
    simp [initRateLimiter, hf, hp, hs]
  have hgd := getData_of_current c (saveData d { s with hasCheckedBackup := true }) d rfl hcur
  rw [hinit]
  refine ⟨?_, ?_⟩
  · show checkResult c (getData c (saveData d { s with hasCheckedBackup := true })).1 = _
    rw [hgd]
    simp only [checkResult]
    rw [if_neg (by omega), if_neg (by omega), if_neg (by omega)]
  · show (getData c (saveData d { s with hasCheckedBackup := true })).2.primary = some d
    rw [hgd]
    rfl

/-- C2 amended witness: the backed-up count-5 state is restored by a
    fresh-session init and the following check reports 2 remaining daily
    visualizations. -/
theorem initRateLimiter_restores_backup_witness :
    ((⟨none, some ⟨⟨"2026-10-12", 5, 0⟩, ⟨0, 1, [0]⟩, 0, [], 0⟩, false⟩ : RLStore).primary
        = none
      ∧ currentFor ⟨⟨"2026-10-12", 5, 0⟩, ⟨0, 1, [0]⟩, 0, [], 0⟩
          ⟨1000, "2026-10-12", 0, 3600000, 60000⟩
      ∧ (⟨⟨"2026-10-12", 5, 0⟩, ⟨0, 1, [0]⟩, 0, [], 0⟩ : RateLimitData).daily.count
          < LIMITS.DAILY_VISUALIZATIONS)
    ∧ ((checkRateLimit ⟨1000, "2026-10-12", 0, 3600000, 60000⟩
          (initRateLimiter ⟨none, some ⟨⟨"2026-10-12", 5, 0⟩, ⟨0, 1, [0]⟩, 0, [], 0⟩, false⟩)).1
        = { allowed := true, reason := none, waitTime := none,
            dailyRemaining := some ((LIMITS.DAILY_VISUALIZATIONS : Int)
              - (⟨⟨"2026-10-12", 5, 0⟩, ⟨0, 1, [0]⟩, 0, [], 0⟩ : RateLimitData).daily.count),
            hourlyRemaining := some ((LIMITS.HOURLY_VISUALIZATIONS : Int)
              - (⟨⟨"2026-10-12", 5, 0⟩, ⟨0, 1, [0]⟩, 0, [], 0⟩ : RateLimitData).hourly.count),
            timeUntilDailyReset := none }
      ∧ (checkRateLimit ⟨1000, "2026-10-12", 0, 3600000, 60000⟩
          (initRateLimiter ⟨none, some ⟨⟨"2026-10-12", 5, 0⟩, ⟨0, 1, [0]⟩, 0, [], 0⟩, false⟩)).2.primary
        = some ⟨⟨"2026-10-12", 5, 0⟩, ⟨0, 1, [0]⟩, 0, [], 0⟩) := by
  refine ⟨⟨rfl, ⟨rfl, rfl, by decide, rfl⟩, by decide⟩, ?_⟩
  exact initRateLimiter_restores_backup _ _ ⟨⟨"2026-10-12", 5, 0⟩, ⟨0, 1, [0]⟩, 0, [], 0⟩
    rfl rfl rfl ⟨rfl, rfl, by decide, rfl⟩ (by decide) (by decide) (by decide)

theorem recordVisualization_eq (c : Clock) (s : RLStore) :
    ∃ e : RateLimitData, recordVisualization c s = saveData e (getData c s).2
      ∧ e.daily = { (getData c s).1.daily with count := (getData c s).1.daily.count + 1 } := by
  simp only [recordVisualization]
  split_ifs with hw
  · exact ⟨_, rfl, rfl⟩
  · exact ⟨_, rfl, rfl⟩

theorem recordVisualization_daily_step (c : Clock) (s : RLStore) (d : RateLimitData)
    (hp : s.primary = some d) (hdate : d.daily.date = c.todayStr) :
    ∃ e : RateLimitData, recordVisualization c s = saveData e s
      ∧ e.daily.date = d.daily.date ∧ e.daily.count = d.daily.count + 1 := by
  obtain ⟨e, he, hed⟩ := recordVisualization_eq c s
  have hdaily := getData_fst_daily c s d hp hdate
  refine ⟨e, ?_, ?_, ?_⟩
  · rw [he, getData_snd c s, saveData_saveData]
  · rw [hed, hdaily]
  · rw [hed, hdaily]

theorem recordVisualization_init_step (c : Clock) (s : RLStore) (hp : s.primary = none) :
    ∃ e : RateLimitData, recordVisualization c s = saveData e s
      ∧ e.daily.date = c.todayStr ∧ e.daily.count = 1 := by
  obtain ⟨e, he, hed⟩ := recordVisualization_eq c s
  have hgd1 : (getData c s).1 = initializeData c := by simp [getData, loadData, hp]
  refine ⟨e, ?_, ?_, ?_⟩
  · rw [he, getData_snd c s, saveData_saveData]
  · rw [hed, hgd1]
    rfl
  · rw [hed, hgd1]
    rfl

/-- C9: recordVisualization increments daily.count with no clamp at the daily
    limit — from count = DAILY_VISUALIZATIONS it stores DAILY_VISUALIZATIONS+1
    and getRateLimitStatus then reports dailyRemaining = -1; nothing in
    recordVisualization checks the limit. -/
theorem recordVisualization_no_clamp (c : Clock) (s : RLStore) (d : RateLimitData)
    (hp : s.primary = some d) (hdate : d.daily.date = c.todayStr)
    (hcount : d.daily.count = LIMITS.DAILY_VISUALIZATIONS) :
    (∃ e, (recordVisualization c s).primary = some e
        ∧ e.daily.count = LIMITS.DAILY_VISUALIZATIONS + 1)
    ∧ (getRateLimitStatus c (recordVisualization c s)).1.dailyRemaining = -1 := by
  obtain ⟨e, he, hed, hec⟩ := recordVisualization_daily_step c s d hp hdate
  have hpe : (recordVisualization c s).primary = some e := by rw [he]; rfl
  have hcnt : e.daily.count = LIMITS.DAILY_VISUALIZATIONS + 1 := by rw [hec, hcount]
  refine ⟨⟨e, hpe, hcnt⟩, ?_⟩
  have hdd : (getData c (recordVisualization c s)).1.daily = e.daily :=
    getData_fst_daily c _ e hpe (hed.trans hdate)
  show (LIMITS.DAILY_VISUALIZATIONS : Int)
      - (getData c (recordVisualization c s)).1.daily.count = -1
  rw [hdd, hcnt]
  simp only [LIMITS]
  omega

/-- C9 witness: from a stored count of 7 on the current day, one more record
    stores 8 and the status reports -1 remaining. -/
theorem recordVisualization_no_clamp_witness :
    ((⟨some ⟨⟨"2026-10-12", 7, 0⟩, ⟨0, 2, [0, 0]⟩, 0, [], 15000⟩,
        some ⟨⟨"2026-10-12", 7, 0⟩, ⟨0, 2, [0, 0]⟩, 0, [], 15000⟩, true⟩ : RLStore).primary
        = some ⟨⟨"2026-10-12", 7, 0⟩, ⟨0, 2, [0, 0]⟩, 0, [], 15000⟩
      ∧ (⟨⟨"2026-10-12", 7, 0⟩, ⟨0, 2, [0, 0]⟩, 0, [], 15000⟩ : RateLimitData).daily.count
        = LIMITS.DAILY_VISUALIZATIONS)
    ∧ ((∃ e, (recordVisualization ⟨1000, "2026-10-12", 0, 3600000, 60000⟩
          ⟨some ⟨⟨"2026-10-12", 7, 0⟩, ⟨0, 2, [0, 0]⟩, 0, [], 15000⟩,
           some ⟨⟨"2026-10-12", 7, 0⟩, ⟨0, 2, [0, 0]⟩, 0, [], 15000⟩, true⟩).primary = some e
          ∧ e.daily.count = LIMITS.DAILY_VISUALIZATIONS + 1)
      ∧ (getRateLimitStatus ⟨1000, "2026-10-12", 0, 3600000, 60000⟩
          (recordVisualization ⟨1000, "2026-10-12", 0, 3600000, 60000⟩
            ⟨some ⟨⟨"2026-10-12", 7, 0⟩, ⟨0, 2, [0, 0]⟩, 0, [], 15000⟩,
             some ⟨⟨"2026-10-12", 7, 0⟩, ⟨0, 2, [0, 0]⟩, 0, [], 15000⟩, true⟩)).1.dailyRemaining
        = -1) := by
  refine ⟨⟨rfl, rfl⟩, ?_⟩
  exact recordVisualization_no_clamp _ _
    ⟨⟨"2026-10-12", 7, 0⟩, ⟨0, 2, [0, 0]⟩, 0, [], 15000⟩ rfl rfl rfl

theorem recordSeq_daily_count (cs : List Clock) (D : String) :
    ∀ (s : RLStore) (d : RateLimitData), s.primary = some d → d.daily.date = D →
      (∀ ci ∈ cs, ci.todayStr = D) →
      ∃ e, (recordSeq cs s).primary = some e ∧ e.daily.date = D
        ∧ e.daily.count = d.daily.count + cs.length := by
  induction cs with
  | nil =>
    intro s d hp hdate _
    exact ⟨d, hp, hdate, by simp [recordSeq]⟩
  | cons c1 rest ih =>
    intro s d hp hdate hall
    have hc1 : c1.todayStr = D := hall c1 (List.mem_cons_self _ _)
    obtain ⟨e, he, hed, hec⟩ :=
      recordVisualization_daily_step c1 s d hp (hdate.trans hc1.symm)
    have hpe : (recordVisualization c1 s).primary = some e := by rw [he]; rfl
    obtain ⟨e2, hp2, hd2, hc2⟩ := ih (recordVisualization c1 s) e hpe (hed.trans hdate)
      (fun ci hi => hall ci (List.mem_cons_of_mem _ hi))
    refine ⟨e2, hp2, hd2, ?_⟩
    rw [hc2, hec]
    simp only [List.length_cons]
    omega

/-- C6: with DAILY_LIMIT = 7, after seven recordVisualization calls on the
    same UTC day starting from an empty store, a checkRateLimit on that day
    whose loaded cooldown has expired is denied with the daily-limit message
    (including the time-until-reset suffix) and dailyRemaining 0; and the
    cooldown check takes precedence over all other checks — whenever the
    loaded state's cooldownUntil is in the future, the result is the cooldown
    denial with its wait-time message, whatever the counts are. -/
theorem checkRateLimit_daily_limit_after_seven
    (s0 : RLStore) (cs : List Clock) (c : Clock) (D : String)
    (h0 : s0.primary = none)
    (hcs : ∀ ci ∈ cs, ci.todayStr = D)
    (hlen : cs.length = 7)
    (hc : c.todayStr = D)
    (hcd : (getData c (recordSeq cs s0)).1.cooldownUntil ≤ c.nowMs) :
    ((checkRateLimit c (recordSeq cs s0)).1.allowed = false
      ∧ (checkRateLimit c (recordSeq cs s0)).1.reason
        = some (dailyLimitReason c.msUntilDailyReset)
      ∧ (checkRateLimit c (recordSeq cs s0)).1.dailyRemaining = some 0)
    ∧ ∀ c2 s2, c2.nowMs < (getData c2 s2).1.cooldownUntil →
        (checkRateLimit c2 s2).1.allowed = false
        ∧ (checkRateLimit c2 s2).1.reason
          = some (cooldownReason (((getData c2 s2).1.cooldownUntil - c2.nowMs + 999) / 1000)) := by
  constructor
  · cases cs with
    | nil => simp at hlen
    | cons c1 rest =>
      obtain ⟨e1, he1, he1d, he1c⟩ := recordVisualization_init_step c1 s0 h0
      have hc1 : c1.todayStr = D := hcs c1 (List.mem_cons_self _ _)
      have hpe1 : (recordVisualization c1 s0).primary = some e1 := by rw [he1]; rfl
      obtain ⟨e7, hp7, hd7, hc7⟩ := recordSeq_daily_count rest D
        (recordVisualization c1 s0) e1 hpe1 (he1d.trans hc1)
        (fun ci hi => hcs ci (List.mem_cons_of_mem _ hi))
      have hlen6 : rest.length = 6 := by simpa using hlen
      have hcount7 : e7.daily.count = 7 := by omega
      have hpF : (recordSeq (c1 :: rest) s0).primary = some e7 := hp7
      have hdd : (getData c (recordSeq (c1 :: rest) s0)).1.daily = e7.daily :=
        getData_fst_daily c _ e7 hpF (hd7.trans hc.symm)
      have hcond : LIMITS.DAILY_VISUALIZATIONS
          ≤ (getData c (recordSeq (c1 :: rest) s0)).1.daily.count := by
        rw [hdd, hcount7]
        decide
      have heq : (checkRateLimit c (recordSeq (c1 :: rest) s0)).1
          = { allowed := false
              reason := some (dailyLimitReason c.msUntilDailyReset)
              waitTime := none
              dailyRemaining := some 0
              hourlyRemaining := some ((LIMITS.HOURLY_VISUALIZATIONS : Int)
                - (getData c (recordSeq (c1 :: rest) s0)).1.hourly.count)
              timeUntilDailyReset := some c.msUntilDailyReset } := by
        show checkResult c (getData c (recordSeq (c1 :: rest) s0)).1 = _
        simp only [checkResult]
        rw [if_neg (by omega), if_pos hcond]
      exact ⟨by rw [heq], by rw [heq], by rw [heq]⟩
  · intro c2 s2 hlt
    have heq2 : (checkRateLimit c2 s2).1
        = checkResult c2 (getData c2 s2).1 := rfl
    rw [heq2]
    simp only [checkResult]
    rw [if_pos hlt]
    exact ⟨rfl, rfl⟩

/-- C6 witness: seven records at time 0 on 2026-10-12 starting from an empty
    store; a check at time 20000 (cooldown of 15s expired) on the same day is
    denied with the daily message "Daily limit reached (7/7). Resets in 2h 2m."
    and dailyRemaining 0. -/
theorem checkRateLimit_daily_limit_after_seven_witness :
    ((⟨none, none, true⟩ : RLStore).primary = none
      ∧ (∀ ci ∈ List.replicate 7 (⟨0, "2026-10-12", 0, 7320000, 60000⟩ : Clock),
          ci.todayStr = "2026-10-12")
      ∧ (List.replicate 7 (⟨0, "2026-10-12", 0, 7320000, 60000⟩ : Clock)).length = 7
      ∧ (getData ⟨20000, "2026-10-12", 0, 7320000, 60000⟩
          (recordSeq (List.replicate 7 ⟨0, "2026-10-12", 0, 7320000, 60000⟩)
            ⟨none, none, true⟩)).1.cooldownUntil ≤ 20000)
    ∧ (((checkRateLimit ⟨20000, "2026-10-12", 0, 7320000, 60000⟩
          (recordSeq (List.replicate 7 ⟨0, "2026-10-12", 0, 7320000, 60000⟩)
            ⟨none, none, true⟩)).1.allowed = false
        ∧ (checkRateLimit ⟨20000, "2026-10-12", 0, 7320000, 60000⟩
            (recordSeq (List.replicate 7 ⟨0, "2026-10-12", 0, 7320000, 60000⟩)
              ⟨none, none, true⟩)).1.reason
          = some (dailyLimitReason
              (⟨20000, "2026-10-12", 0, 7320000, 60000⟩ : Clock).msUntilDailyReset)
        ∧ (checkRateLimit ⟨20000, "2026-10-12", 0, 7320000, 60000⟩
            (recordSeq (List.replicate 7 ⟨0, "2026-10-12", 0, 7320000, 60000⟩)
              ⟨none, none, true⟩)).1.dailyRemaining = some 0)
      ∧ ∀ c2 s2, c2.nowMs < (getData c2 s2).1.cooldownUntil →
          (checkRateLimit c2 s2).1.allowed = false
          ∧ (checkRateLimit c2 s2).1.reason
            = some (cooldownReason
                (((getData c2 s2).1.cooldownUntil - c2.nowMs + 999) / 1000))) := by
  refine ⟨⟨rfl, by decide, rfl, by decide⟩, ?_⟩
  exact checkRateLimit_daily_limit_after_seven ⟨none, none, true⟩
    (List.replicate 7 ⟨0, "2026-10-12", 0, 7320000, 60000⟩)
    ⟨20000, "2026-10-12", 0, 7320000, 60000⟩ "2026-10-12"
    rfl (by decide) rfl rfl (by decide)

/-! ## Hash-key generator (ImageCache.generateImageHash and its fallback,
    src/services/cache.ts lines 136-175).  Payloads are lists of characters;
    the Web Crypto SHA-256 hex digest is an abstract function parameter, since
    it is a platform primitive outside the repository; everything the code
    feeds into it is modelled exactly. -/

/-- The digest input built by generateImageHash (cache.ts lines 140-142): the
    first min(10000, length) characters of the payload concatenated with the
    decimal length. -/
def hashInputChars (b : List Char) : List Char :=
  b.take (min 10000 b.length) ++ (toString b.length).toList

/-- ImageCache.generateImageHash (cache.ts lines 136-155): SHA-256 hex digest
    of the sampled input, truncated to 16 characters; `sha` abstracts
    crypto.subtle.digest plus hex encoding. -/
def generateImageHash (sha : List Char → List Char) (b : List Char) : List Char :=
  (sha (hashInputChars b)).take 16

/-- JavaScript ToInt32 truncation (the effect of `hash & hash` and of `<<` on
    a number, cache.ts lines 171-172). -/
def toInt32 (x : Int) : Int := (x + 2147483648) % 4294967296 - 2147483648

/-- One iteration of the fallback rolling hash (cache.ts lines 169-173):
    hash = ToInt32(ToInt32(hash << 5) - hash + charCode). -/
def jsHashStep (h : Int) (c : Char) : Int :=
  toInt32 (toInt32 (h * 32) - h + (c.toNat : Int))

/-- The fallback rolling hash over a character sequence, starting from 0
    (cache.ts lines 168-173). -/
def jsHash (cs : List Char) : Int := cs.foldl jsHashStep 0

/-- A base-36 digit as produced by JavaScript Number.toString(36). -/
def jsDigitChar (n : Nat) : Char :=
  if n < 10 then Char.ofNat (48 + n) else Char.ofNat (97 + (n - 10))

/-- Base-36 rendering of a natural number (Math.abs(hash).toString(36),
    cache.ts line 174). -/
def toBase36 (n : Nat) : List Char :=
  if _hlt : n < 36 then [jsDigitChar n]
  else toBase36 (n / 36) ++ [jsDigitChar (n % 36)]
decreasing_by exact Nat.div_lt_self (by omega) (by omega)

/-- The sample string hashed by the fallback (cache.ts lines 161-166): first
    500 characters, 500 characters from the middle when length > 1000, the
    last 500 characters when length > 1500, then the decimal length. -/
def fallbackSamples (b : List Char) : List Char :=
  let len := b.length
  let sample1 := b.take (min 500 len)
  let sample2 := if len > 1000 then (b.drop (len / 2)).take 500 else []
  let sample3 := if len > 1500 then b.drop (len - 500) else []
  sample1 ++ sample2 ++ sample3 ++ (toString len).toList

/-- ImageCache.generateImageHashFallback (cache.ts lines 160-175). -/
def generateImageHashFallback (b : List Char) : List Char :=
  toBase36 (jsHash (fallbackSamples b)).natAbs

/-- A 10100-character payload ending in "Aa"; its companion pTailB differs
    only in the final two characters. -/
def pTailA : List Char := List.replicate 10098 'a' ++ ['A', 'a']

/-- A 10100-character payload ending in "BB". -/
def pTailB : List Char := List.replicate 10098 'a' ++ ['B', 'B']

theorem pTailA_length : pTailA.length = 10100 := by
  rw [pTailA, List.length_append, List.length_replicate]
  rfl

theorem pTailB_length : pTailB.length = 10100 := by
  rw [pTailB, List.length_append, List.length_replicate]
  rfl

theorem jsHashStep_Aa_BB (h : Int) :
    jsHashStep (jsHashStep h 'A') 'a' = jsHashStep (jsHashStep h 'B') 'B' := by
  have ha : ('A'.toNat : Int) = 65 := by decide
  have hb : ('a'.toNat : Int) = 97 := by decide
  have hc : ('B'.toNat : Int) = 66 := by decide
  simp only [jsHashStep, toInt32, ha, hb, hc]
  omega

theorem pTailA_take500 : pTailA.take 500 = List.replicate 500 'a' := by
  rw [pTailA, List.take_append_of_le_length (by rw [List.length_replicate]; norm_num),
    List.take_replicate, min_eq_left (by norm_num)]

theorem pTailB_take500 : pTailB.take 500 = List.replicate 500 'a' := by
  rw [pTailB, List.take_append_of_le_length (by rw [List.length_replicate]; norm_num),
    List.take_replicate, min_eq_left (by norm_num)]

theorem pTailA_take10000 : pTailA.take 10000 = List.replicate 10000 'a' := by
  rw [pTailA, List.take_append_of_le_length (by rw [List.length_replicate]; norm_num),
    List.take_replicate, min_eq_left (by norm_num)]

theorem pTailB_take10000 : pTailB.take 10000 = List.replicate 10000 'a' := by
  rw [pTailB, List.take_append_of_le_length (by rw [List.length_replicate]; norm_num),
    List.take_replicate, min_eq_left (by norm_num)]

theorem pTailA_mid : (pTailA.drop 5050).take 500 = List.replicate 500 'a' := by
  rw [pTailA, List.drop_append_of_le_length (by rw [List.length_replicate]; norm_num),
    List.drop_replicate, show (10098 - 5050 : Nat) = 5048 from by norm_num,
    List.take_append_of_le_length (by rw [List.length_replicate]; norm_num),
    List.take_replicate, min_eq_left (by norm_num)]

theorem pTailB_mid : (pTailB.drop 5050).take 500 = List.replicate 500 'a' := by
  rw [pTailB, List.drop_append_of_le_length (by rw [List.length_replicate]; norm_num),
    List.drop_replicate, show (10098 - 5050 : Nat) = 5048 from by norm_num,
    List.take_append_of_le_length (by rw [List.length_replicate]; norm_num),
    List.take_replicate, min_eq_left (by norm_num)]

theorem pTailA_end : pTailA.drop 9600 = List.replicate 498 'a' ++ ['A', 'a'] := by
  rw [pTailA, List.drop_append_of_le_length (by rw [List.length_replicate]; norm_num),
    List.drop_replicate, show (10098 - 9600 : Nat) = 498 from by norm_num]

theorem pTailB_end : pTailB.drop 9600 = List.replicate 498 'a' ++ ['B', 'B'] := by
  rw [pTailB, List.drop_append_of_le_length (by rw [List.length_replicate]; norm_num),
    List.drop_replicate, show (10098 - 9600 : Nat) = 498 from by norm_num]

theorem fallbackSamples_pTailA :
    fallbackSamples pTailA = List.replicate 500 'a'
      ++ (List.replicate 500 'a'
      ++ ((List.replicate 498 'a' ++ ['A', 'a']) ++ (toString 10100).toList)) := by
  simp only [fallbackSamples, pTailA_length]
  rw [min_eq_left (by norm_num), if_pos (by norm_num), if_pos (by norm_num),
    show (10100 / 2 : Nat) = 5050 from by norm_num,
    show (10100 - 500 : Nat) = 9600 from by norm_num,
    pTailA_take500, pTailA_mid, pTailA_end]
  simp only [List.append_assoc]

theorem fallbackSamples_pTailB :
    fallbackSamples pTailB = List.replicate 500 'a'
      ++ (List.replicate 500 'a'
      ++ ((List.replicate 498 'a' ++ ['B', 'B']) ++ (toString 10100).toList)) := by
  simp only [fallbackSamples, pTailB_length]
  rw [min_eq_left (by norm_num), if_pos (by norm_num), if_pos (by norm_num),
    show (10100 / 2 : Nat) = 5050 from by norm_num,
    show (10100 - 500 : Nat) = 9600 from by norm_num,
    pTailB_take500, pTailB_mid, pTailB_end]
  simp only [List.append_assoc]

theorem jsHash_tail_collision :
    jsHash (fallbackSamples pTailA) = jsHash (fallbackSamples pTailB) := by
  rw [fallbackSamples_pTailA, fallbackSamples_pTailB]
  simp only [jsHash, List.foldl_append]
  have h2 : ∀ h : Int, List.foldl jsHashStep h ['A', 'a'] = jsHashStep (jsHashStep h 'A') 'a' :=
    fun _ => rfl
  have h3 : ∀ h : Int, List.foldl jsHashStep h ['B', 'B'] = jsHashStep (jsHashStep h 'B') 'B' :=
    fun _ => rfl
  rw [h2, h3, jsHashStep_Aa_BB]

theorem hashInput_tail_eq : hashInputChars pTailA = hashInputChars pTailB := by
  simp only [hashInputChars, pTailA_length, pTailB_length]
  rw [min_eq_left (by norm_num), pTailA_take10000, pTailB_take10000]

theorem pTail_ne : pTailA ≠ pTailB := by
  intro h
  rw [pTailA, pTailB] at h
  exact absurd (List.append_cancel_left h) (by decide)

theorem pTail_agree :
    pTailA.take (pTailA.length - 100) = pTailB.take (pTailB.length - 100) := by
  rw [pTailA_length, pTailB_length, show (10100 - 100 : Nat) = 10000 from by norm_num,
    pTailA_take10000, pTailB_take10000]

/-- C4: two equal-length base64 payloads differing only in their last 100
    characters need not hash differently.  pTailA and pTailB (10100
    characters, differing only in the last two) receive the very same digest
    input from generateImageHash — the primary hash reads only the first
    10000 characters plus the length — so any digest function (SHA-256
    included, witnessed here by the identity) maps them to the same hash; and
    the synchronous fallback also collides on them, because its 32-bit
    rolling hash sends the differing suffixes "Aa" and "BB" to the same
    state. -/
theorem generateImageHash_tail_collision_cex :
    pTailA ≠ pTailB
    ∧ pTailA.length = pTailB.length
    ∧ pTailA.take (pTailA.length - 100) = pTailB.take (pTailB.length - 100)
    ∧ hashInputChars pTailA = hashInputChars pTailB
    ∧ generateImageHash (fun l => l) pTailA = generateImageHash (fun l => l) pTailB
    ∧ generateImageHashFallback pTailA = generateImageHashFallback pTailB := by
  refine ⟨pTail_ne, by rw [pTailA_length, pTailB_length], pTail_agree, hashInput_tail_eq,
    ?_, ?_⟩
  · rw [generateImageHash, generateImageHash, hashInput_tail_eq]
  · rw [generateImageHashFallback, generateImageHashFallback, jsHash_tail_collision]

/-- C4 amended: equal-length payloads that agree outside their last 100
    characters are separated by the primary hash's digest input exactly when
    the sampled prefix reaches the tail: for payloads of length at most 10000
    the digest inputs differ whenever the payloads do, while for length at
    least 10100 the primary hash collides with certainty, for every digest
    function. -/
theorem hashInput_tail_sensitivity
    (sha : List Char → List Char) (p1 p2 : List Char)
    (hlen : p1.length = p2.length)
    (hpre : p1.take (p1.length - 100) = p2.take (p2.length - 100)) :
    (p1.length ≤ 10000 → p1 ≠ p2 → hashInputChars p1 ≠ hashInputChars p2)
    ∧ (10100 ≤ p1.length → generateImageHash sha p1 = generateImageHash sha p2) := by
  constructor
  · intro hle hne hinput
    apply hne
    have h1 : hashInputChars p1 = p1 ++ (toString p1.length).toList := by
      rw [hashInputChars, min_eq_right hle, List.take_length]
    have h2 : hashInputChars p2 = p2 ++ (toString p2.length).toList := by
      rw [hashInputChars, min_eq_right (by omega : p2.length ≤ 10000), List.take_length]
    rw [h1, h2, hlen] at hinput
    exact List.append_cancel_right hinput
  · intro hge
    have ht1 : p1.take 10000 = (p1.take (p1.length - 100)).take 10000 := by
      rw [List.take_take, min_eq_left (by omega)]
    have ht2 : p2.take 10000 = (p2.take (p2.length - 100)).take 10000 := by
      rw [List.take_take, min_eq_left (by omega)]
    have htake : p1.take 10000 = p2.take 10000 := by rw [ht1, ht2, hpre]
    rw [generateImageHash, generateImageHash, hashInputChars, hashInputChars,
      min_eq_left (by omega : (10000 : Nat) ≤ p1.length),
      min_eq_left (by omega : (10000 : Nat) ≤ p2.length), htake, hlen]

/-- C4 amended witness: the single-character payloads "x" and "y" (length 1,
    differing within the last 100 characters) get distinct digest inputs. -/
theorem hashInput_tail_sensitivity_witness :
    ((['x'] : List Char).length = (['y'] : List Char).length
      ∧ (['x'] : List Char).take ((['x'] : List Char).length - 100)
        = (['y'] : List Char).take ((['y'] : List Char).length - 100))
    ∧ (((['x'] : List Char).length ≤ 10000 → (['x'] : List Char) ≠ ['y'] →
          hashInputChars ['x'] ≠ hashInputChars ['y'])
      ∧ (10100 ≤ (['x'] : List Char).length →
          generateImageHash (fun l => l) ['x'] = generateImageHash (fun l => l) ['y'])) := by
  refine ⟨⟨rfl, rfl⟩, ?_⟩
  exact hashInput_tail_sensitivity (fun l => l) ['x'] ['y'] rfl rfl


/-! ## Request lifecycle coordinator (performVisualization / handleVisualize,
    src/App.tsx lines 488-625).  The model keeps the two pieces of state the
    last-request-wins check reads and writes: currentRequestRef.current and
    the displayed visualizedImage.  Issuing a request covers handleVisualize
    clearing the visible image (line 621) and performVisualization assigning
    the new request identity (line 506); completing one covers the
    post-getOrSet section (lines 576-591), which runs without interruption on
    the single-threaded event loop.  Color strings are lists of characters so
    the JavaScript trim / toUpperCase / replace pipeline stays executable. -/

/-- Whitespace as trimmed by JavaScript String.prototype.trim. -/
def jsWhitespace (c : Char) : Bool :=
  c = ' ' || c = '\t' || c = '\n' || c = '\r'

/-- colorHex.trim() (App.tsx line 501). -/
def jsTrim (s : List Char) : List Char :=
  ((s.dropWhile jsWhitespace).reverse.dropWhile jsWhitespace).reverse

/-- .toUpperCase() (App.tsx line 501). -/
def jsToUpper (s : List Char) : List Char := s.map Char.toUpper

/-- .startsWith('#') (App.tsx line 502). -/
def startsWithHash : List Char → Bool
  | '#' :: _ => true
  | _ => false

/-- .replace applied to one leading '#' (App.tsx line 501). -/
def stripLeadingHash (s : List Char) : List Char :=
  match s with
  | '#' :: rest => rest
  | other => other

/-- The hex normalization of performVisualization (App.tsx lines 501-502):
    trim, upper-case, strip one leading '#', then ensure a leading '#'. -/
def normalizeHex (colorHex : List Char) : List Char :=
  let normalizedHex := stripLeadingHash (jsToUpper (jsTrim colorHex))
  if startsWithHash normalizedHex then normalizedHex else '#' :: normalizedHex

/-- The request identity imageHash_normalizedColorHex (App.tsx line 505). -/
def mkRequestId (imageHash colorHex : List Char) : List Char :=
  imageHash ++ '_' :: normalizeHex colorHex

/-- The coordinator state: currentRequestRef.current and the displayed
    visualizedImage. -/
structure CoordState where
  current : Option (List Char)
  visible : Option (List Char)
  deriving DecidableEq

/-- The completion of a visualization request (App.tsx lines 576-591): the
    result is applied to visible state only if the request identity still
    equals the current one, and only if it passes the length-100 sanity check
    (line 584); otherwise the state is untouched. -/
def applyResult (s : CoordState) (id : List Char) (result : List Char) : CoordState :=
  if s.current = some id then
    if result.length < 100 then s
    else { s with visible := some result }
  else s

/-- The coordinator events: issuing a request (clear the visible image,
    install the new identity) and a request completing with a result. -/
inductive VisEvent where
  | issue (id : List Char)
  | complete (id : List Char) (result : List Char)

/-- One coordinator transition. -/
def visStep (s : CoordState) : VisEvent → CoordState
  | VisEvent.issue id => { current := some id, visible := none }
  | VisEvent.complete id result => applyResult s id result

/-- A sequence of coordinator events, applied in order. -/
def visRun (s : CoordState) (es : List VisEvent) : CoordState := es.foldl visStep s

theorem mkRequestId_ne (h c1 c2 : List Char) (hne : normalizeHex c1 ≠ normalizeHex c2) :
    mkRequestId h c1 ≠ mkRequestId h c2 := by
  intro heq
  exact hne (List.cons_injective.eq_iff.mp (List.append_cancel_left heq))

theorem applyResult_current (cur : List Char) (vis : Option (List Char)) (r : List Char)
    (hr : 100 ≤ r.length) :
    applyResult ⟨some cur, vis⟩ cur r = ⟨some cur, some r⟩ := by
  unfold applyResult
  rw [if_pos rfl, if_neg (by omega)]

theorem applyResult_stale (cur vis : Option (List Char)) (id r : List Char)
    (hne : cur ≠ some id) : applyResult ⟨cur, vis⟩ id r = ⟨cur, vis⟩ := by
  unfold applyResult
  rw [if_neg hne]

/-- C5: last-request-wins.  If R1 is issued for one color and then R2 for a
    color with a different normalized hex on the same image, R2's valid result
    is applied, and R1's result completing afterwards leaves the visible state
    holding R2's result untouched; and in general a completion changes the
    visible state only when its identity still equals the coordinator's
    current identity. -/
theorem last_request_wins
    (s0 : CoordState) (h c1 c2 v1 v2 : List Char)
    (hne : normalizeHex c1 ≠ normalizeHex c2)
    (hv2 : 100 ≤ v2.length) :
    visRun s0 [VisEvent.issue (mkRequestId h c1), VisEvent.issue (mkRequestId h c2),
        VisEvent.complete (mkRequestId h c2) v2, VisEvent.complete (mkRequestId h c1) v1]
      = { current := some (mkRequestId h c2), visible := some v2 }
    ∧ ∀ (s : CoordState) (id r : List Char),
        (applyResult s id r).visible ≠ s.visible → s.current = some id := by
  have hid := mkRequestId_ne h c1 c2 hne
  constructor
  · have hne12 : some (mkRequestId h c2) ≠ some (mkRequestId h c1) := by
      intro hsome
      exact hid (Option.some.inj hsome).symm
    simp only [visRun, List.foldl, visStep]
    rw [applyResult_current _ _ _ hv2, applyResult_stale _ _ _ _ hne12]
  · intro s id r hch
    by_cases hc : s.current = some id
    · exact hc
    · exfalso
      apply hch
      simp [applyResult, hc]

/-- C5 witness: colors "#FF0000" then "#00FF00" on image hash "img"; the slow
    red result "r1" arriving after the green 100-character result leaves the
    green result displayed. -/
theorem last_request_wins_witness :
    (normalizeHex ['#', 'F', 'F', '0', '0', '0', '0']
        ≠ normalizeHex ['#', '0', '0', 'F', 'F', '0', '0']
      ∧ 100 ≤ (List.replicate 100 'x').length)
    ∧ (visRun ⟨none, none⟩
        [VisEvent.issue (mkRequestId ['i', 'm', 'g'] ['#', 'F', 'F', '0', '0', '0', '0']),
         VisEvent.issue (mkRequestId ['i', 'm', 'g'] ['#', '0', '0', 'F', 'F', '0', '0']),
         VisEvent.complete (mkRequestId ['i', 'm', 'g'] ['#', '0', '0', 'F', 'F', '0', '0'])
           (List.replicate 100 'x'),
         VisEvent.complete (mkRequestId ['i', 'm', 'g'] ['#', 'F', 'F', '0', '0', '0', '0'])
           ['r', '1']]
        = { current := some (mkRequestId ['i', 'm', 'g'] ['#', '0', '0', 'F', 'F', '0', '0']),
            visible := some (List.replicate 100 'x') }
      ∧ ∀ (s : CoordState) (id r : List Char),
          (applyResult s id r).visible ≠ s.visible → s.current = some id) := by
  refine ⟨⟨by decide, by decide⟩, ?_⟩
  exact last_request_wins ⟨none, none⟩ ['i', 'm', 'g'] ['#', 'F', 'F', '0', '0', '0', '0']
    ['#', '0', '0', 'F', 'F', '0', '0'] ['r', '1'] (List.replicate 100 'x')
    (by decide) (by decide)
